import Mathlib

/-!
Shallow embedding of the bullhorn-api-helper session/token lifecycle code.

Sources embedded:
- `src/index.ts` / `src/unnamed/part_000`, `src/unnamed/part_001`:
  class `BullhornServerSideAuthClient` (the managed session client) with
  `login`, `ping`, `startLoginCron`, `stopLoginCron`, `makeRequest`.
- `src/unnamed/part_002`: class `SimpleBullhornAuthClient` (the caching
  session client) with `getBullhornAPIClient`, and the auth functions
  `getAuthorizationCode`, `getAccessToken`, `getRestTokenAndUrl`,
  `getSessionExpiry`, `getSimpleBHToken`, `getBHToken`
  (same text as `src/src/auth_functions.ts`).
- `src/src/universalLogin.ts`: `universalLogin`.

Conventions of the embedding:
- Time is in milliseconds as `Nat` (JS `Date` values compare by their
  millisecond epoch value; `getBHToken` returns an ISO string that `login`
  immediately turns back into a `Date`, so we keep the epoch value).
- Network effects are passed in explicitly: each function that awaits a
  network call takes the transport's answer for that call as an argument
  (an `Except`), and returns the list of requests it issued, so that
  "no network call happens" is the statement that the request list is empty.
- JS exceptions become `Except.error`; the distinct error shapes thrown by
  the code are the constructors of `ClientError`.
-/

deriving instance DecidableEq for Except

/-- The `{ restUrl, BhRestToken }` pair returned by
`getRestTokenAndUrl` / `getSimpleBHToken` and cached by
`SimpleBullhornAuthClient`. -/
structure RestData where
  restUrl : String
  BhRestToken : String
deriving DecidableEq, Repr

/-- The `{ restUrl, BhRestToken, sessionExpires }` object returned by
`getBHToken` (sessionExpires kept as epoch milliseconds). -/
structure BHTokenData where
  restUrl : String
  BhRestToken : String
  sessionExpires : Nat
deriving DecidableEq, Repr

/-- The error shapes the embedded code can surface.  `authError` stands for
the spec's `AuthError` taxonomy entry (the hint-carrying error built by
`getBHToken`); `notLoggedIn` is the `Error("Not logged in, ...")` thrown by
`makeRequest`; `alreadyRunning` is the `Error("Login cron already started")`
thrown by `startLoginCron`; `transport` is an error produced and thrown by
the underlying HTTP client (axios), passed through untouched; `typeError`
is an unguarded JS runtime `TypeError` (dereference of `undefined`). -/
inductive ClientError where
  | authError (msg : String)
  | notLoggedIn (msg : String)
  | alreadyRunning (msg : String)
  | transport (msg : String)
  | typeError (msg : String)
deriving DecidableEq, Repr

/-- Whether an error is the spec's `AuthError`. -/
def ClientError.isAuthError : ClientError → Bool
  | ClientError.authError _ => true
  | _ => false

/-- Whether a computation failed with an `AuthError` (as opposed to
succeeding or failing with some other error shape). -/
def failsWithAuthError {α : Type} : Except ClientError α → Bool
  | Except.error e => e.isAuthError
  | Except.ok _ => false

namespace BullhornServerSideAuthClient

/-- The mutable fields of `BullhornServerSideAuthClient`:
`restUrl`, `BhRestToken`, `sessionExpires`, `loggedIn`, `task`, plus the
two `api.defaults` slots that `login` assigns (`api.defaults.baseURL` and
`api.defaults.params.BhRestToken`).  The cron task handle is opaque, so it
is modelled as `Option Unit`.  A fresh instance has every optional field
absent and `loggedIn = false`. -/
structure MState where
  restUrl : Option String
  BhRestToken : Option String
  sessionExpires : Option Nat
  apiBaseURL : Option String
  apiTokenParam : Option String
  loggedIn : Bool
  task : Option Unit
deriving DecidableEq, Repr

/-- State of a freshly constructed client (all fields `undefined`,
`loggedIn = false`, no cron task). -/
def initialState : MState :=
  { restUrl := none, BhRestToken := none, sessionExpires := none,
    apiBaseURL := none, apiTokenParam := none, loggedIn := false,
    task := none }

/-- Events emitted through `this.eventEmitter`. -/
inductive MEvent where
  | login (t : BHTokenData)
  | loginFailed (e : String)
deriving DecidableEq, Repr

/-- `6 * 60 * 60 * 1000` milliseconds, the freshness margin checked by
`login`. -/
def sixHoursMs : Nat := 6 * 60 * 60 * 1000

/-- What one `login()` call did: the state after the call, the events
emitted during it (in order), and whether `getBHToken` was invoked
(`acquired = false` means the early-return path was taken and no network
acquisition happened). -/
structure LoginOutcome where
  state : MState
  events : List MEvent
  acquired : Bool
deriving DecidableEq, Repr

/-- `login()` (src/unnamed/part_001 lines 51-79).  `now` is the value of
`new Date()` at the freshness check; `acq` is the result of the awaited
`getBHToken(...)` call (its error carried as the thrown message string).
The source: if `this.sessionExpires` is set and `> now + 6h`, return early;
otherwise `try { token = await getBHToken(...); mutate all session fields;
emit "login" } catch { emit "loginFailed" }`.  The `try/catch` swallows
every acquisition error, so `login` is a total function: no exception
escapes it. -/
def login (st : MState) (now : Nat) (acq : Except String BHTokenData) :
    LoginOutcome :=
  let run : LoginOutcome :=
    match acq with
    | Except.ok t =>
      { state :=
          { st with
            restUrl := some t.restUrl,
            BhRestToken := some t.BhRestToken,
            sessionExpires := some t.sessionExpires,
            apiTokenParam := some t.BhRestToken,
            apiBaseURL := some t.restUrl,
            loggedIn := true },
        events := [MEvent.login t],
        acquired := true }
    | Except.error e =>
      { state := st, events := [MEvent.loginFailed e], acquired := true }
  match st.sessionExpires with
  | some exp =>
    -- JS: `this.sessionExpires > sixHoursFromNow` (strict Date comparison)
    if now + sixHoursMs < exp then
      { state := st, events := [], acquired := false }
    else run
  | none => run

/-- The freshness condition of `login`'s early return, as a standalone
predicate: a session expiry is stored and lies strictly beyond
`now + 6h`. -/
def sessionFresh (st : MState) (now : Nat) : Bool :=
  match st.sessionExpires with
  | some exp => decide (now + sixHoursMs < exp)
  | none => false

/-- A GET issued through the shared axios instance: the relative url, the
instance's current `defaults.baseURL`, and the `BhRestToken` param the call
carries. -/
structure GetRequest where
  url : String
  baseURL : Option String
  BhRestToken : Option String
deriving DecidableEq, Repr

/-- The JSON body the `/ping` endpoint answers with. -/
structure PingResponse where
  sessionExpires : Nat
deriving DecidableEq, Repr

/-- `ping()` (src/unnamed/part_001 lines 41-44):
`const { data } = await this.api.get("/ping", { params: { BhRestToken:
this.BhRestToken } }); return data.sessionExpires;`.
There is no guard of any kind: the GET is issued unconditionally with
whatever `this.BhRestToken` currently is (possibly `undefined`), the
transport's failure (if any) propagates unchanged, and no field of the
client is written.  `transport` is the awaited answer of that one GET. -/
def ping (st : MState) (transport : Except ClientError PingResponse) :
    Except ClientError Nat × List GetRequest :=
  (transport.map (fun d => d.sessionExpires),
   [{ url := "/ping", baseURL := st.apiBaseURL,
      BhRestToken := st.BhRestToken }])

/-- A request issued by `makeRequest`: the axios config forwarded verbatim
plus the shared instance's current defaults (baseURL and the default
`BhRestToken` param installed by the last successful `login`). -/
structure IssuedRequest where
  baseURL : Option String
  defaultToken : Option String
  url : String
  method : String
deriving DecidableEq, Repr

/-- JS falsiness of `this.BhRestToken` (a `string | undefined`):
`!x` is true exactly when the field is `undefined` or the empty string. -/
def tokenFalsy : Option String → Bool
  | none => true
  | some s => decide (s = "")

/-- `makeRequest(config)` (src/unnamed/part_001 lines 124-129):
`if (!this.BhRestToken) throw new Error("Not logged in, try again in a few
seconds"); return this.api.request(config);`.  On the success path the
request goes out through the shared instance, hence against the current
`defaults.baseURL` with the current default `BhRestToken` param.  The
function only reads state; it never waits for an in-flight `login`. -/
def makeRequest (st : MState) (url : String) (method : String) :
    Except ClientError IssuedRequest :=
  if tokenFalsy st.BhRestToken then
    Except.error
      (ClientError.notLoggedIn "Not logged in, try again in a few seconds")
  else
    Except.ok
      { baseURL := st.apiBaseURL, defaultToken := st.apiTokenParam,
        url := url, method := method }

/-- `startLoginCron()` (src/unnamed/part_001 lines 88-105):
`if (this.task) throw new Error("Login cron already started");
await this.login(); this.task = cron.schedule(...); return this.task;`.
`now` and `acq` feed the inner `login()` call exactly as in `login`. -/
def startLoginCron (st : MState) (now : Nat)
    (acq : Except String BHTokenData) :
    Except ClientError (MState × List MEvent) :=
  match st.task with
  | some _ =>
    Except.error (ClientError.alreadyRunning "Login cron already started")
  | none =>
    let o := login st now acq
    Except.ok ({ o.state with task := some () }, o.events)

/-- `stopLoginCron()` (src/unnamed/part_001 lines 110-115):
`if (this.task) { this.task.stop(); this.task = undefined; }`.
When no task is present the body does nothing, so in both branches the
resulting `task` field is `none` and every other field is untouched. -/
def stopLoginCron (st : MState) : MState :=
  { st with task := none }

end BullhornServerSideAuthClient

namespace SimpleBullhornAuthClient

/-- `const CACHE_TTL_MS = 30 * 60 * 1000` (src/unnamed/part_002 line 4). -/
def CACHE_TTL_MS : Nat := 30 * 60 * 1000

/-- The mutable fields of `SimpleBullhornAuthClient`:
`cachedToken`, `cacheExpiresAt`, and whether `tokenFetchPromise` is
non-null (the promise itself is opaque; only its presence matters for
control flow). -/
structure SState where
  cachedToken : Option RestData
  cacheExpiresAt : Option Nat
  tokenFetchPending : Bool
deriving DecidableEq, Repr

/-- State of a freshly constructed client (both cache fields `null`,
no in-flight fetch). -/
def emptyState : SState :=
  { cachedToken := none, cacheExpiresAt := none, tokenFetchPending := false }

/-- The cache-hit test of `getBullhornAPIClient`
(src/unnamed/part_002 line 39):
`this.cachedToken && this.cacheExpiresAt && this.cacheExpiresAt > now`. -/
def cacheValid (s : SState) (now : Nat) : Bool :=
  match s.cachedToken, s.cacheExpiresAt with
  | some _, some e => decide (now < e)
  | _, _ => false

/-- What one `getBullhornAPIClient()` call produced: the session data the
returned axios instance is bound to (or the rejection), the client state
after the call completed, and whether this call itself started a
`getSimpleBHToken` acquisition. -/
structure CallOutcome where
  result : Except String RestData
  state : SState
  acquired : Bool
deriving DecidableEq, Repr

/-- The cache-miss path of `getBullhornAPIClient`
(src/unnamed/part_002 lines 48-67): if no fetch is pending, start one
(`acquired := true`); in either case await the pending fetch.  When it
resolves, the IIFE has stored `cachedToken` and
`cacheExpiresAt = Date.now() + CACHE_TTL_MS` (on success; on failure the
cache fields are untouched) and its `finally` has reset
`tokenFetchPromise` to `null`.  `fetchResult` is the settled value of the
awaited `getSimpleBHToken` call and `completionTime` the value of
`Date.now()` when it resolved. -/
def awaitFetch (s : SState) (fetchResult : Except String RestData)
    (completionTime : Nat) : CallOutcome :=
  let started := !s.tokenFetchPending
  match fetchResult with
  | Except.ok t =>
    { result := Except.ok t,
      state := { cachedToken := some t,
                 cacheExpiresAt := some (completionTime + CACHE_TTL_MS),
                 tokenFetchPending := false },
      acquired := started }
  | Except.error e =>
    { result := Except.error e,
      state := { s with tokenFetchPending := false },
      acquired := started }

/-- `getBullhornAPIClient()` (src/unnamed/part_002 lines 37-68) as seen by
a single caller: with a valid cache entry the cached session is returned
immediately and nothing changes; otherwise the caller goes through the
fetch path. -/
def getBullhornAPIClient (s : SState) (now : Nat)
    (fetchResult : Except String RestData) (completionTime : Nat) :
    CallOutcome :=
  match s.cachedToken, s.cacheExpiresAt with
  | some t, some e =>
    if now < e then { result := Except.ok t, state := s, acquired := false }
    else awaitFetch s fetchResult completionTime
  | some _, none => awaitFetch s fetchResult completionTime
  | none, _ => awaitFetch s fetchResult completionTime

/-- Accumulated effect of several concurrent `getBullhornAPIClient` calls
that have each run their synchronous prefix (everything up to the first
suspension) but whose shared fetch has not yet settled: the client state,
how many calls were served from the cache, how many acquisitions were
started, and how many callers are awaiting the pending fetch. -/
structure FanIn where
  st : SState
  served : Nat
  starts : Nat
  waiters : Nat
deriving DecidableEq, Repr

/-- The synchronous prefix of one `getBullhornAPIClient` call under JS
run-to-completion semantics: check the cache; on a miss, create the fetch
iff `tokenFetchPromise` is null; then subscribe to the pending fetch
(the creator awaits it too, line 61). -/
def stepCall (now : Nat) (a : FanIn) : FanIn :=
  if cacheValid a.st now then
    { a with served := a.served + 1 }
  else if a.st.tokenFetchPending then
    { a with waiters := a.waiters + 1 }
  else
    { st := { a.st with tokenFetchPending := true },
      served := a.served, starts := a.starts + 1,
      waiters := a.waiters + 1 }

/-- `n` concurrent calls interleaved before the fetch settles, starting
from client state `s`. -/
def fanIn (s : SState) (now : Nat) : Nat → FanIn
  | 0 => { st := s, served := 0, starts := 0, waiters := 0 }
  | n + 1 => stepCall now (fanIn s now n)

/-- Settlement of the pending fetch: the IIFE body stores the new cache
entry on success (cache untouched on failure), its `finally` clears
`tokenFetchPromise`, and every caller awaiting the promise resumes with
the same settled value.  Returns the final client state and the list of
outcomes the waiting callers observe. -/
def resolveFetch (a : FanIn) (result : Except String RestData)
    (completionTime : Nat) : SState × List (Except String RestData) :=
  match result with
  | Except.ok t =>
    ({ cachedToken := some t,
       cacheExpiresAt := some (completionTime + CACHE_TTL_MS),
       tokenFetchPending := false },
     List.replicate a.waiters (Except.ok t))
  | Except.error e =>
    ({ a.st with tokenFetchPending := false },
     List.replicate a.waiters (Except.error e))

end SimpleBullhornAuthClient

namespace AuthFunctions

/-!
`getAuthorizationCode` (src/src/auth_functions.ts lines 4-46) modelled at
the HTTP-transport level.  A POST is a url plus a form body; the transport
is the list of responses the authority gives to successive POSTs.  axios
with `maxRedirects: 0` hands back a redirect response without following
it, and rejects (throws) whenever `validateStatus` returns false for the
received status.  `new URL(location).searchParams.get('code')` is modelled
by character-level query-string parsing (percent-decoding is not modelled;
authorization codes in this flow are URL-safe).
-/

/-- A redirect-style HTTP response: status code and `Location` header. -/
structure HttpResponse where
  status : Nat
  location : String
deriving DecidableEq, Repr

/-- A POST request: target url and form fields in insertion order. -/
structure PostRequest where
  url : String
  form : List (String × String)
deriving DecidableEq, Repr

/-- Failures of the authorization-code step:
`badStatus` is an axios rejection caused by `validateStatus` refusing the
received status; `transportMissing` is the transport supplying no response
at all (network failure); `noAuthorizationCode` is the
`Error('No authorization code received')` thrown by the source. -/
inductive AuthStepError where
  | badStatus (status : Nat)
  | transportMissing
  | noAuthorizationCode
deriving DecidableEq, Repr

/-- The form body built at the top of `getAuthorizationCode`:
`username`, `password`, `action=Login`, in that order. -/
def loginForm (username password : String) : List (String × String) :=
  [("username", username), ("password", password), ("action", "Login")]

/-- The initial authorize url:
`https://auth-${cluster}.bullhornstaffing.com/oauth/authorize?client_id=...&response_type=code`. -/
def authorizeUrl (clientId cluster : String) : String :=
  "https://auth-" ++ cluster ++
    ".bullhornstaffing.com/oauth/authorize?client_id=" ++ clientId ++
    "&response_type=code"

/-- Everything after the first `?` of a url (the raw query-plus-fragment
part), at character level. -/
def afterQuestionMark : List Char → List Char
  | [] => []
  | c :: cs => if c = '?' then cs else afterQuestionMark cs

/-- Truncate at the first `#` (a url fragment is not part of the query). -/
def beforeHash : List Char → List Char
  | [] => []
  | c :: cs => if c = '#' then [] else c :: beforeHash cs

/-- Split a character list on `&` separators. -/
def splitAmp : List Char → List (List Char)
  | [] => [[]]
  | c :: cs =>
    let r := splitAmp cs
    if c = '&' then [] :: r
    else
      match r with
      | y :: ys => (c :: y) :: ys
      | [] => [[c]]

/-- Key of one `key=value` query segment (everything before the first
`=`). -/
def paramKey (kv : List Char) : List Char :=
  kv.takeWhile (fun c => c ≠ '=')

/-- Value of one `key=value` query segment (everything after the first
`=`; empty when there is no `=`). -/
def paramVal (kv : List Char) : List Char :=
  (kv.dropWhile (fun c => c ≠ '=')).drop 1

/-- `new URL(url).searchParams.get(key)`: the value of the first query
segment whose key matches, `none` when no segment matches. -/
def searchParamGet (url key : String) : Option String :=
  let q := beforeHash (afterQuestionMark url.data)
  ((splitAmp q).filter (fun kv => paramKey kv = key.data)).head?.map
    (fun kv => String.mk (paramVal kv))

/-- The tail of `getAuthorizationCode` (lines 37-43): read `code` from the
final redirect's `Location` query string; `if (!authCode) throw` — `null`
and the empty string are both falsy, so both raise
`noAuthorizationCode`. -/
def extractCode (location : String) : Except AuthStepError String :=
  match searchParamGet location "code" with
  | some c =>
    if c = "" then Except.error AuthStepError.noAuthorizationCode
    else Except.ok c
  | none => Except.error AuthStepError.noAuthorizationCode

/-- `getAuthorizationCode(username, password, clientId, cluster)`
(src/src/auth_functions.ts lines 4-46) against a transport that answers
the i-th POST with `transport[i]`.  Returns the step result together with
the trace of POSTs issued.  First POST: `validateStatus` admits 302 and
307.  On 307 the same form is re-POSTed once to the `Location` url, this
time admitting only 302 (so a second 307 makes axios reject).  Finally the
code is extracted from the last response's `Location`. -/
def getAuthorizationCode (username password clientId cluster : String)
    (transport : List HttpResponse) :
    Except AuthStepError String × List PostRequest :=
  let form := loginForm username password
  let req1 : PostRequest := { url := authorizeUrl clientId cluster, form := form }
  match transport with
  | [] => (Except.error AuthStepError.transportMissing, [req1])
  | r1 :: rest =>
    if r1.status = 302 ∨ r1.status = 307 then
      if r1.status = 307 then
        let req2 : PostRequest := { url := r1.location, form := form }
        match rest with
        | [] => (Except.error AuthStepError.transportMissing, [req1, req2])
        | r2 :: _ =>
          if r2.status = 302 then (extractCode r2.location, [req1, req2])
          else (Except.error (AuthStepError.badStatus r2.status), [req1, req2])
      else (extractCode r1.location, [req1])
    else (Except.error (AuthStepError.badStatus r1.status), [req1])

/-!
`getSimpleBHToken` / `getBHToken` (src/unnamed/part_002 lines 217-269,
same text as src/src/auth_functions.ts lines 104-130) modelled over the
results of the four awaited step functions.  Step errors are carried as
their thrown message strings.
-/

/-- The awaited results of the four step functions, as the acquisition
sees them: each later step receives the value produced by the earlier
one. -/
structure AuthSteps where
  authorizationCode : Except String String
  accessToken : String → Except String String
  restTokenAndUrl : String → Except String RestData
  sessionExpiry : RestData → Except String Nat

/-- `getSimpleBHToken` (src/unnamed/part_002 lines 217-229): the three
exchanges in sequence, no expiry probe, and — crucially — no `try/catch`:
a step failure propagates to the caller exactly as thrown. -/
def getSimpleBHToken (s : AuthSteps) : Except String RestData := do
  let authCode ← s.authorizationCode
  let accessToken ← s.accessToken authCode
  s.restTokenAndUrl accessToken

/-- The message of the error thrown by `getBHToken`'s `catch` block
(src/unnamed/part_002 lines 263-267). -/
def hintMessage (clientId : String) : String :=
  "Failed to get BH Token, check credentials and try browsing to: " ++
    "https://auth.bullhornstaffing.com/oauth/authorize?client_id=" ++
    clientId ++
    "&response_type=code&username=[username]&password=[password]&action=Login " ++
    "and accept the terms and condition"

/-- The `try` block of `getBHToken`: the three exchanges plus the expiry
probe, each step feeding the next. -/
def getBHTokenBody (s : AuthSteps) : Except String BHTokenData := do
  let authCode ← s.authorizationCode
  let accessToken ← s.accessToken authCode
  let restData ← s.restTokenAndUrl accessToken
  let sessionExpires ← s.sessionExpiry restData
  pure { restUrl := restData.restUrl, BhRestToken := restData.BhRestToken,
         sessionExpires := sessionExpires }

/-- `getBHToken` (src/unnamed/part_002 lines 243-269): the `try` block
wrapped in `catch`; any step failure is replaced by the single
hint-carrying error. -/
def getBHToken (clientId : String) (s : AuthSteps) :
    Except String BHTokenData :=
  match getBHTokenBody s with
  | Except.ok t => Except.ok t
  | Except.error _ => Except.error (hintMessage clientId)

/-- Does `hay` start with `needle` (character lists)? -/
def leadMatch : List Char → List Char → Bool
  | [], _ => true
  | _ :: _, [] => false
  | a :: as, b :: bs => a = b && leadMatch as bs

/-- Does `hay` contain `needle` as a contiguous substring? -/
def subMatch (needle : List Char) : List Char → Bool
  | [] => leadMatch needle []
  | c :: cs => leadMatch needle (c :: cs) || subMatch needle cs

/-- The remediation hint the spec requires every acquisition failure to
carry. -/
def hintText : String := "check credentials and try browsing to"

/-- Does an error message contain the remediation hint? -/
def containsHint (msg : String) : Bool :=
  subMatch hintText.data msg.data

end AuthFunctions

namespace UniversalLogin

/-- The `value` field of one session entry in the universal-login
response: an optional `token` and an `endpoint`. -/
structure SessionValue where
  token : Option String
  endpoint : String
deriving DecidableEq, Repr

/-- One entry of the response's `sessions` array. -/
structure USession where
  name : String
  value : SessionValue
deriving DecidableEq, Repr

/-- The part of `UniversalLoginResponse` that `universalLogin` reads. -/
structure UniversalLoginResponse where
  sessions : List USession
deriving DecidableEq, Repr

/-- What `universalLogin` hands back: `{ BhRestToken: session.token,
restUrl: session.endpoint }` (the token is optional in the wire type). -/
structure UniversalLoginResult where
  BhRestToken : Option String
  restUrl : String
deriving DecidableEq, Repr

/-- `universalLogin` (src/src/universalLogin.ts lines 48-57) after the
POST has answered with `resp`:
`const session = data.sessions.find(s => s.name === 'rest')?.value as
Value; return { BhRestToken: session.token, restUrl: session.endpoint }`.
When no session is named `rest`, `find` yields `undefined`, `?.value`
yields `undefined`, and the member accesses on it raise an unguarded
runtime `TypeError` — not a descriptive auth error. -/
def universalLogin (resp : UniversalLoginResponse) :
    Except ClientError UniversalLoginResult :=
  match resp.sessions.find? (fun s => s.name == "rest") with
  | some s =>
    Except.ok { BhRestToken := s.value.token, restUrl := s.value.endpoint }
  | none =>
    Except.error (ClientError.typeError
      "Cannot read properties of undefined (reading 'token')")

end UniversalLogin

/-!  Concrete fixtures used to instantiate the theorems below. -/

/-- A concrete session pair as returned by `getSimpleBHToken`. -/
def sampleRest : RestData :=
  { restUrl := "https://rest-emea.bullhornstaffing.com/rest-services/e999/",
    BhRestToken := "rest-token-1" }

/-- A concrete full token as returned by `getBHToken`. -/
def sampleToken : BHTokenData :=
  { restUrl := "https://rest-emea.bullhornstaffing.com/rest-services/e999/",
    BhRestToken := "tok-1", sessionExpires := 1700000000000 }

/-- A managed-client state holding a session that expires far in the
future (well beyond the 6-hour margin at `now = 0`). -/
def freshSessionState : BullhornServerSideAuthClient.MState :=
  { restUrl := some sampleToken.restUrl,
    BhRestToken := some sampleToken.BhRestToken,
    sessionExpires := some 108000000,
    apiBaseURL := some sampleToken.restUrl,
    apiTokenParam := some sampleToken.BhRestToken,
    loggedIn := true, task := none }

/-- A caching-client state holding a cache entry valid until `t = 1000`. -/
def cachedState : SimpleBullhornAuthClient.SState :=
  { cachedToken := some sampleRest, cacheExpiresAt := some 1000,
    tokenFetchPending := false }

/-- Step results in which the very first exchange (the authorization-code
POST) fails the way axios reports a rejected credential login. -/
def stepFailSteps : AuthFunctions.AuthSteps :=
  { authorizationCode := Except.error "Request failed with status code 401",
    accessToken := fun _ => Except.ok "at-1",
    restTokenAndUrl := fun _ => Except.ok sampleRest,
    sessionExpiry := fun _ => Except.ok 1700000000000 }

/-- Step results in which every exchange succeeds. -/
def stepOkSteps : AuthFunctions.AuthSteps :=
  { authorizationCode := Except.ok "code-1",
    accessToken := fun _ => Except.ok "at-1",
    restTokenAndUrl := fun _ => Except.ok sampleRest,
    sessionExpiry := fun _ => Except.ok 1700000000000 }

/-! ## Theorems -/

section ManagedClientTheorems

open BullhornServerSideAuthClient

/-- C2: if the acquisition inside `login()` fails, the stored session
fields and the `loggedIn` flag are exactly as before (the whole state is
unchanged), and whenever the acquisition actually ran (the early-return
path was not taken) exactly one `loginFailed` event carrying the error is
emitted.  No exception escapes: `login` is a total function into
`LoginOutcome`. -/
theorem C2_login_failure_preserves_state
    (st : MState) (now : Nat) (e : String) :
    (login st now (Except.error e)).state = st ∧
    ((login st now (Except.error e)).acquired = true →
      (login st now (Except.error e)).events = [MEvent.loginFailed e]) := by
  unfold login
  cases h : st.sessionExpires with
  | none => simp
  | some exp =>
    by_cases hfresh : now + sixHoursMs < exp <;> simp [hfresh]

/-- Witness for C2 at a concrete state (previously stored session that is
about to expire, so the refresh runs and fails). -/
theorem C2_login_failure_preserves_state_witness :
    (login { freshSessionState with sessionExpires := some 10 } 5
        (Except.error "boom")).state
      = { freshSessionState with sessionExpires := some 10 } ∧
    (login { freshSessionState with sessionExpires := some 10 } 5
        (Except.error "boom")).events
      = [MEvent.loginFailed "boom"] :=
  ⟨(C2_login_failure_preserves_state
      { freshSessionState with sessionExpires := some 10 } 5 "boom").1,
   (C2_login_failure_preserves_state
      { freshSessionState with sessionExpires := some 10 } 5 "boom").2
     (by decide)⟩

/-- C3: `login()` returns immediately with no acquisition when a stored
expiry lies strictly beyond `now + 6h`; otherwise it runs the acquisition
and, on success, stores the new session (all fields plus the axios
defaults), sets `loggedIn := true`, and emits one `login` event carrying
the new token. -/
theorem C3_login_refresh_policy (st : MState) (now : Nat)
    (acq : Except String BHTokenData) :
    (sessionFresh st now = true →
      login st now acq = { state := st, events := [], acquired := false }) ∧
    (sessionFresh st now = false → (login st now acq).acquired = true) ∧
    (∀ t, sessionFresh st now = false → acq = Except.ok t →
      login st now acq =
        { state :=
            { st with
              restUrl := some t.restUrl,
              BhRestToken := some t.BhRestToken,
              sessionExpires := some t.sessionExpires,
              apiTokenParam := some t.BhRestToken,
              apiBaseURL := some t.restUrl,
              loggedIn := true },
          events := [MEvent.login t], acquired := true }) := by
  unfold login sessionFresh
  cases h : st.sessionExpires with
  | none =>
    refine ⟨by simp, ?_, ?_⟩ <;> cases acq <;> simp
  | some exp =>
    by_cases hfresh : now + sixHoursMs < exp
    · refine ⟨by simp [hfresh], ?_, ?_⟩ <;> cases acq <;> simp [hfresh]
    · refine ⟨by simp [hfresh], ?_, ?_⟩ <;> cases acq <;> simp [hfresh]

/-- Witness for C3: at a fresh state the acquisition runs and installs the
new session; at a state with a far-future expiry the call is a no-op. -/
theorem C3_login_refresh_policy_witness :
    login initialState 0 (Except.ok sampleToken) =
      { state :=
          { initialState with
            restUrl := some sampleToken.restUrl,
            BhRestToken := some sampleToken.BhRestToken,
            sessionExpires := some sampleToken.sessionExpires,
            apiTokenParam := some sampleToken.BhRestToken,
            apiBaseURL := some sampleToken.restUrl,
            loggedIn := true },
        events := [MEvent.login sampleToken], acquired := true } ∧
    login freshSessionState 0 (Except.ok sampleToken) =
      { state := freshSessionState, events := [], acquired := false } :=
  ⟨(C3_login_refresh_policy initialState 0 (Except.ok sampleToken)).2.2
      sampleToken (by decide) rfl,
   (C3_login_refresh_policy freshSessionState 0 (Except.ok sampleToken)).1
      (by decide)⟩

end ManagedClientTheorems

section CronAndRequestTheorems

open BullhornServerSideAuthClient

/-- C9: `startLoginCron` fails with the already-running error exactly when
a task handle is present (so a second start without an intervening stop
fails), `stopLoginCron` is idempotent and a no-op on an inactive client,
and a start after a stop succeeds. -/
theorem C9_cron_lifecycle (st : MState) (now now2 : Nat)
    (acq acq2 : Except String BHTokenData) :
    (st.task ≠ none →
      startLoginCron st now acq =
        Except.error
          (ClientError.alreadyRunning "Login cron already started")) ∧
    (st.task = none →
      startLoginCron st now acq =
        Except.ok ({ (login st now acq).state with task := some () },
                   (login st now acq).events)) ∧
    (∀ st' evs, startLoginCron st now acq = Except.ok (st', evs) →
      startLoginCron st' now2 acq2 =
        Except.error
          (ClientError.alreadyRunning "Login cron already started")) ∧
    (stopLoginCron st).task = none ∧
    stopLoginCron (stopLoginCron st) = stopLoginCron st ∧
    (st.task = none → stopLoginCron st = st) ∧
    (∃ r, startLoginCron (stopLoginCron st) now acq = Except.ok r) := by
  have hlogin_task : ∀ (s : MState) (n : Nat) (a : Except String BHTokenData),
      (login s n a).state.task = s.task := by
    intro s n a
    unfold login
    cases s.sessionExpires with
    | none => cases a <;> simp
    | some exp =>
      by_cases hfresh : n + sixHoursMs < exp <;> cases a <;> simp [hfresh]
  refine ⟨?_, ?_, ?_, ?_, ?_, ?_, ?_⟩
  · intro h
    unfold startLoginCron
    cases htask : st.task with
    | none => exact absurd htask h
    | some u => simp
  · intro h
    unfold startLoginCron
    rw [h]
  · intro st' evs h
    unfold startLoginCron at h ⊢
    cases htask : st.task with
    | some u => rw [htask] at h; exact absurd h (by simp)
    | none =>
      rw [htask] at h
      simp only [Except.ok.injEq, Prod.mk.injEq] at h
      rw [← h.1]
  · rfl
  · rfl
  · intro h
    unfold stopLoginCron
    cases st
    simp_all
  · refine ⟨({ (login (stopLoginCron st) now acq).state with task := some () },
             (login (stopLoginCron st) now acq).events), ?_⟩
    unfold startLoginCron
    have : (stopLoginCron st).task = none := rfl
    rw [this]

/-- Witness for C9 at concrete inputs: a started client refuses a second
start; stop is a no-op on the fresh client; a start after stop succeeds. -/
theorem C9_cron_lifecycle_witness :
    startLoginCron { freshSessionState with task := some () } 0
        (Except.ok sampleToken) =
      Except.error (ClientError.alreadyRunning "Login cron already started") ∧
    stopLoginCron initialState = initialState ∧
    (∃ r, startLoginCron (stopLoginCron { freshSessionState with task := some () })
        0 (Except.ok sampleToken) = Except.ok r) :=
  ⟨(C9_cron_lifecycle { freshSessionState with task := some () } 0 0
      (Except.ok sampleToken) (Except.ok sampleToken)).1 (by decide),
   (C9_cron_lifecycle initialState 0 0
      (Except.ok sampleToken) (Except.ok sampleToken)).2.2.2.2.2.1 rfl,
   (C9_cron_lifecycle { freshSessionState with task := some () } 0 0
      (Except.ok sampleToken) (Except.ok sampleToken)).2.2.2.2.2.2⟩

end CronAndRequestTheorems

section RequestPingTheorems

open BullhornServerSideAuthClient

/-- C8 counterexample: the claim's "fails with NotLoggedInError if and
only if no session token has ever been set" is false on the code.  A
successful `login` that stores the empty string as `BhRestToken` (a value
the wire type allows) HAS set a session token — the `login` event fires
and the field holds `some ""` — yet `makeRequest` still throws
"Not logged in", because the source guard is JS falsiness
(`!this.BhRestToken`), which the empty string also satisfies. -/
theorem C8_counterexample :
    (login initialState 0
        (Except.ok { restUrl := "https://rest.example/", BhRestToken := "",
                     sessionExpires := 999 })).events
      = [MEvent.login { restUrl := "https://rest.example/", BhRestToken := "",
                        sessionExpires := 999 }] ∧
    (login initialState 0
        (Except.ok { restUrl := "https://rest.example/", BhRestToken := "",
                     sessionExpires := 999 })).state.BhRestToken = some "" ∧
    makeRequest
        (login initialState 0
          (Except.ok { restUrl := "https://rest.example/", BhRestToken := "",
                       sessionExpires := 999 })).state
        "/entity/Candidate/1" "GET"
      = Except.error
          (ClientError.notLoggedIn "Not logged in, try again in a few seconds") := by
  refine ⟨rfl, rfl, rfl⟩

/-- C8 (amended): `makeRequest` fails with the "Not logged in" error iff
the current `BhRestToken` is falsy (absent or the empty string); for a
non-falsy token the request is issued with the axios instance's current
defaults (baseURL and default token param), reading only current state —
it never waits for an in-flight `login`. -/
theorem C8_makeRequest_spec (st : MState) (url method : String) :
    (makeRequest st url method =
        Except.error
          (ClientError.notLoggedIn "Not logged in, try again in a few seconds")
      ↔ tokenFalsy st.BhRestToken = true) ∧
    (tokenFalsy st.BhRestToken = false →
      makeRequest st url method =
        Except.ok { baseURL := st.apiBaseURL, defaultToken := st.apiTokenParam,
                    url := url, method := method }) := by
  unfold makeRequest
  by_cases h : tokenFalsy st.BhRestToken <;> simp [h]

/-- Witness for C8's amended theorem: the fresh client refuses the
request; a logged-in client issues it with its defaults. -/
theorem C8_makeRequest_spec_witness :
    (makeRequest initialState "/ping" "GET" =
        Except.error
          (ClientError.notLoggedIn "Not logged in, try again in a few seconds")) ∧
    makeRequest freshSessionState "/ping" "GET" =
      Except.ok { baseURL := freshSessionState.apiBaseURL,
                  defaultToken := freshSessionState.apiTokenParam,
                  url := "/ping", method := "GET" } :=
  ⟨(C8_makeRequest_spec initialState "/ping" "GET").1.mpr (by decide),
   (C8_makeRequest_spec freshSessionState "/ping" "GET").2 (by decide)⟩

/-- C7 counterexample: the claim's "calling ping() with no established
session fails with AuthError" is false on the code.  On the fresh client
(no session ever established) `ping` still issues the liveness GET — with
`BhRestToken` absent and no baseURL — and surfaces the transport's own
failure unchanged, which is not an AuthError. -/
theorem C7_counterexample :
    ping initialState (Except.error (ClientError.transport "Invalid URL"))
      = (Except.error (ClientError.transport "Invalid URL"),
         [{ url := "/ping", baseURL := none, BhRestToken := none }]) ∧
    failsWithAuthError
        (ping initialState
          (Except.error (ClientError.transport "Invalid URL"))).1 = false := by
  refine ⟨rfl, rfl⟩

/-- C7 (amended): `ping` unconditionally issues exactly one liveness GET
carrying the current `BhRestToken` (possibly absent) against the current
api baseURL, returns the authority-reported `sessionExpires` on success,
propagates the transport's error unchanged on failure, and never triggers
a refresh or writes any state (it is a pure read of `st`). -/
theorem C7_ping_spec (st : MState)
    (transport : Except ClientError PingResponse) :
    (ping st transport).2 =
      [{ url := "/ping", baseURL := st.apiBaseURL,
         BhRestToken := st.BhRestToken }] ∧
    (∀ d, transport = Except.ok d →
      (ping st transport).1 = Except.ok d.sessionExpires) ∧
    (∀ e, transport = Except.error e →
      (ping st transport).1 = Except.error e) := by
  refine ⟨rfl, ?_, ?_⟩
  · intro d h; rw [h]; rfl
  · intro e h; rw [h]; rfl

/-- Witness for C7's amended theorem on the logged-in fixture with a
successful transport answer. -/
theorem C7_ping_spec_witness :
    (ping freshSessionState (Except.ok { sessionExpires := 1700000000000 })).2 =
      [{ url := "/ping", baseURL := freshSessionState.apiBaseURL,
         BhRestToken := freshSessionState.BhRestToken }] ∧
    (ping freshSessionState (Except.ok { sessionExpires := 1700000000000 })).1 =
      Except.ok 1700000000000 :=
  ⟨(C7_ping_spec freshSessionState
      (Except.ok { sessionExpires := 1700000000000 })).1,
   (C7_ping_spec freshSessionState
      (Except.ok { sessionExpires := 1700000000000 })).2.1
     { sessionExpires := 1700000000000 } rfl⟩

end RequestPingTheorems

section UniversalLoginTheorems

open UniversalLogin

/-- C10: `universalLogin` returns the token and endpoint of the first
session entry named "rest"; when no such entry exists it fails with an
unguarded runtime type error (the dereference of an `undefined` lookup
result), not a descriptive AuthError. -/
theorem C10_universalLogin_spec (resp : UniversalLoginResponse) :
    (∀ s, resp.sessions.find? (fun x => x.name == "rest") = some s →
      universalLogin resp =
        Except.ok { BhRestToken := s.value.token,
                    restUrl := s.value.endpoint }) ∧
    (resp.sessions.find? (fun x => x.name == "rest") = none →
      universalLogin resp =
        Except.error (ClientError.typeError
          "Cannot read properties of undefined (reading 'token')") ∧
      failsWithAuthError (universalLogin resp) = false) := by
  unfold universalLogin
  constructor
  · intro s h
    rw [h]
  · intro h
    rw [h]
    exact ⟨rfl, rfl⟩

/-- Witness for C10: a response carrying a "rest" session yields its
token/endpoint; a response without one raises the modelled TypeError. -/
theorem C10_universalLogin_spec_witness :
    universalLogin
        { sessions :=
            [{ name := "novo", value := { token := none, endpoint := "https://app.example/" } },
             { name := "rest", value := { token := some "rest-token-1",
                                          endpoint := "https://rest.example/" } }] }
      = Except.ok { BhRestToken := some "rest-token-1",
                    restUrl := "https://rest.example/" } ∧
    universalLogin
        { sessions :=
            [{ name := "novo", value := { token := none, endpoint := "https://app.example/" } }] }
      = Except.error (ClientError.typeError
          "Cannot read properties of undefined (reading 'token')") :=
  ⟨(C10_universalLogin_spec
      { sessions :=
          [{ name := "novo", value := { token := none, endpoint := "https://app.example/" } },
           { name := "rest", value := { token := some "rest-token-1",
                                        endpoint := "https://rest.example/" } }] }).1
     { name := "rest", value := { token := some "rest-token-1",
                                  endpoint := "https://rest.example/" } }
     (by decide),
   ((C10_universalLogin_spec
      { sessions :=
          [{ name := "novo", value := { token := none, endpoint := "https://app.example/" } }] }).2
     (by decide)).1⟩

end UniversalLoginTheorems

section CachingClientTheorems

open SimpleBullhornAuthClient

/-- C4: a call strictly before `validUntil` is served from the cache with
no acquisition and no state change; a call at or after `validUntil` (or
with no cache entry) triggers an acquisition, and on success the new
entry's `validUntil` is exactly the acquisition completion time plus 30
minutes — the cache is never extended without a new acquisition. -/
theorem C4_cache_policy (s : SState) (now ct : Nat)
    (r : Except String RestData) :
    (∀ t e, s.cachedToken = some t → s.cacheExpiresAt = some e → now < e →
      getBullhornAPIClient s now r ct =
        { result := Except.ok t, state := s, acquired := false }) ∧
    (cacheValid s now = false → s.tokenFetchPending = false →
      (getBullhornAPIClient s now r ct).acquired = true ∧
      (∀ t, r = Except.ok t →
        (getBullhornAPIClient s now r ct).state =
          { cachedToken := some t,
            cacheExpiresAt := some (ct + CACHE_TTL_MS),
            tokenFetchPending := false })) := by
  constructor
  · intro t e ht he hlt
    unfold getBullhornAPIClient
    rw [ht, he]
    simp [hlt]
  · intro hmiss hpending
    unfold cacheValid at hmiss
    unfold getBullhornAPIClient
    cases ht : s.cachedToken with
    | none =>
      cases r with
      | ok t => exact ⟨by simp [awaitFetch, hpending], by intro t' h; cases h; simp [awaitFetch]⟩
      | error e => exact ⟨by simp [awaitFetch, hpending], by intro t' h; cases h⟩
    | some t0 =>
      cases he : s.cacheExpiresAt with
      | none =>
        cases r with
        | ok t => exact ⟨by simp [awaitFetch, hpending], by intro t' h; cases h; simp [awaitFetch]⟩
        | error e => exact ⟨by simp [awaitFetch, hpending], by intro t' h; cases h⟩
      | some e0 =>
        rw [ht, he] at hmiss
        simp only [decide_eq_false_iff_not, not_lt] at hmiss
        have hnot : ¬ now < e0 := not_lt.mpr hmiss
        cases r with
        | ok t =>
          refine ⟨?_, ?_⟩
          · simp [hnot, awaitFetch, hpending]
          · intro t' h; cases h; simp [hnot, awaitFetch]
        | error e =>
          refine ⟨?_, ?_⟩
          · simp [hnot, awaitFetch, hpending]
          · intro t' h; cases h

/-- Witness for C4: the cached fixture is served untouched at `now = 999`;
the empty client acquires at `now = 0` and stamps
`validUntil = 5000 + 30min`. -/
theorem C4_cache_policy_witness :
    getBullhornAPIClient cachedState 999 (Except.ok sampleRest) 5000 =
      { result := Except.ok sampleRest, state := cachedState,
        acquired := false } ∧
    (getBullhornAPIClient emptyState 0 (Except.ok sampleRest) 5000).acquired
      = true ∧
    (getBullhornAPIClient emptyState 0 (Except.ok sampleRest) 5000).state =
      { cachedToken := some sampleRest,
        cacheExpiresAt := some (5000 + CACHE_TTL_MS),
        tokenFetchPending := false } :=
  ⟨(C4_cache_policy cachedState 999 5000 (Except.ok sampleRest)).1
      sampleRest 1000 rfl rfl (by decide),
   ((C4_cache_policy emptyState 0 5000 (Except.ok sampleRest)).2
      (by decide) rfl).1,
   ((C4_cache_policy emptyState 0 5000 (Except.ok sampleRest)).2
      (by decide) rfl).2 sampleRest rfl⟩

/-- The synchronous prefixes of concurrent cache-miss calls: the first
caller flips `tokenFetchPending` and counts as the one start; every later
caller still misses the (unchanged) cache, sees the pending fetch, and
only subscribes. -/
theorem fanIn_closed_form (s : SState) (now : Nat) (m : Nat)
    (hmiss : cacheValid s now = false)
    (hpending : s.tokenFetchPending = false) :
    fanIn s now (m + 1) =
      { st := { s with tokenFetchPending := true },
        served := 0, starts := 1, waiters := m + 1 } := by
  induction m with
  | zero =>
    show stepCall now { st := s, served := 0, starts := 0, waiters := 0 } = _
    unfold stepCall
    rw [hmiss, hpending]
    simp
  | succ k ih =>
    show stepCall now (fanIn s now (k + 1)) = _
    rw [ih]
    unfold stepCall
    have hmiss' :
        cacheValid { s with tokenFetchPending := true } now = false := by
      unfold cacheValid at hmiss ⊢
      exact hmiss
    rw [hmiss']
    simp

/-- C1: for any number `n ≥ 1` of concurrent `getBullhornAPIClient` calls
that each observe a cache miss (no valid entry, no fetch already in
flight), exactly one `getSimpleBHToken` acquisition is started, and when
the shared fetch settles every one of the `n` callers observes the very
same outcome — the same `{restUrl, BhRestToken}` on success, the same
error on failure. -/
theorem C1_concurrent_coalescing (s : SState) (now ct n : Nat)
    (r : Except String RestData)
    (hmiss : cacheValid s now = false)
    (hpending : s.tokenFetchPending = false)
    (hn : 1 ≤ n) :
    (fanIn s now n).starts = 1 ∧
    (resolveFetch (fanIn s now n) r ct).2 = List.replicate n r := by
  obtain ⟨m, rfl⟩ : ∃ m, n = m + 1 :=
    ⟨n - 1, (Nat.succ_pred_eq_of_pos hn).symm⟩
  rw [fanIn_closed_form s now m hmiss hpending]
  constructor
  · rfl
  · cases r with
    | ok t => rfl
    | error e => rfl

/-- Witness for C1: three concurrent cache-miss calls on the empty client
start exactly one acquisition and all three resolve to the same session. -/
theorem C1_concurrent_coalescing_witness :
    (fanIn emptyState 0 3).starts = 1 ∧
    (resolveFetch (fanIn emptyState 0 3) (Except.ok sampleRest) 5000).2 =
      List.replicate 3 (Except.ok sampleRest) :=
  C1_concurrent_coalescing emptyState 0 5000 3 (Except.ok sampleRest)
    (by decide) rfl (by decide)

end CachingClientTheorems

section AuthFunctionTheorems

open AuthFunctions

/-- C5: on a 307 answer to the authorize POST, `getAuthorizationCode`
re-POSTs the identical form exactly once to the `Location` url and
proceeds normally when that answers 302 with a non-empty `code` in its
`Location` query string; a second consecutive 307 makes the retried POST's
status validation reject, propagating as a plain failure; and a final 302
whose query string carries no `code` fails with the
no-authorization-code error.  In every branch exactly two POSTs go out,
the second one to the corrected url with the same form. -/
theorem C5_cluster_redirect (username password clientId cluster : String)
    (loc1 loc2 loc3 : String) (rest1 rest2 : List HttpResponse)
    (c : String) :
    (searchParamGet loc2 "code" = some c → c ≠ "" →
      getAuthorizationCode username password clientId cluster
          ({ status := 307, location := loc1 } ::
           { status := 302, location := loc2 } :: rest1) =
        (Except.ok c,
         [{ url := authorizeUrl clientId cluster,
            form := loginForm username password },
          { url := loc1, form := loginForm username password }])) ∧
    (getAuthorizationCode username password clientId cluster
        ({ status := 307, location := loc1 } ::
         { status := 307, location := loc3 } :: rest2) =
      (Except.error (AuthStepError.badStatus 307),
       [{ url := authorizeUrl clientId cluster,
          form := loginForm username password },
        { url := loc1, form := loginForm username password }])) ∧
    (searchParamGet loc2 "code" = none →
      getAuthorizationCode username password clientId cluster
          ({ status := 307, location := loc1 } ::
           { status := 302, location := loc2 } :: rest1) =
        (Except.error AuthStepError.noAuthorizationCode,
         [{ url := authorizeUrl clientId cluster,
            form := loginForm username password },
          { url := loc1, form := loginForm username password }])) := by
  refine ⟨?_, ?_, ?_⟩
  · intro hcode hne
    simp [getAuthorizationCode, extractCode, hcode, hne]
  · simp [getAuthorizationCode]
  · intro hcode
    simp [getAuthorizationCode, extractCode, hcode]

/-- Witness for C5 on concrete urls: a wrong-cluster 307 followed by a 302
carrying `code=abc123`, and the same 307 followed by a codeless 302. -/
theorem C5_cluster_redirect_witness :
    getAuthorizationCode "u" "pw" "cid" "emea"
        [{ status := 307,
           location := "https://auth-us.bullhornstaffing.com/oauth/authorize" },
         { status := 302,
           location := "https://app.example/callback?code=abc123&state=1" }] =
      (Except.ok "abc123",
       [{ url := authorizeUrl "cid" "emea", form := loginForm "u" "pw" },
        { url := "https://auth-us.bullhornstaffing.com/oauth/authorize",
          form := loginForm "u" "pw" }]) ∧
    getAuthorizationCode "u" "pw" "cid" "emea"
        [{ status := 307,
           location := "https://auth-us.bullhornstaffing.com/oauth/authorize" },
         { status := 302,
           location := "https://app.example/callback?error=denied" }] =
      (Except.error AuthStepError.noAuthorizationCode,
       [{ url := authorizeUrl "cid" "emea", form := loginForm "u" "pw" },
        { url := "https://auth-us.bullhornstaffing.com/oauth/authorize",
          form := loginForm "u" "pw" }]) :=
  ⟨(C5_cluster_redirect "u" "pw" "cid" "emea"
      "https://auth-us.bullhornstaffing.com/oauth/authorize"
      "https://app.example/callback?code=abc123&state=1" "" [] [] "abc123").1
     (by decide) (by decide),
   (C5_cluster_redirect "u" "pw" "cid" "emea"
      "https://auth-us.bullhornstaffing.com/oauth/authorize"
      "https://app.example/callback?error=denied" "" [] [] "").2.2
     (by decide)⟩

end AuthFunctionTheorems

section HintTheorems

open AuthFunctions

/-- A match at the head survives appending characters on the right. -/
theorem leadMatch_append (needle xs ys : List Char)
    (h : leadMatch needle xs = true) :
    leadMatch needle (xs ++ ys) = true := by
  induction needle generalizing xs with
  | nil => rfl
  | cons a as ih =>
    cases xs with
    | nil => exact absurd h (by simp [leadMatch])
    | cons b bs =>
      simp only [leadMatch, Bool.and_eq_true] at h ⊢
      exact ⟨h.1, ih bs h.2⟩

/-- The empty needle occurs in every haystack. -/
theorem subMatch_nil (ys : List Char) : subMatch [] ys = true := by
  cases ys <;> simp [subMatch, leadMatch]

/-- A substring occurrence survives appending characters on the right. -/
theorem subMatch_append (needle xs ys : List Char)
    (h : subMatch needle xs = true) :
    subMatch needle (xs ++ ys) = true := by
  induction xs with
  | nil =>
    have : needle = [] := by
      cases needle with
      | nil => rfl
      | cons a as => exact absurd h (by simp [subMatch, leadMatch])
    rw [this]
    exact subMatch_nil ys
  | cons c cs ih =>
    simp only [subMatch, Bool.or_eq_true] at h
    cases h with
    | inl hl =>
      have := leadMatch_append needle (c :: cs) ys hl
      simp only [List.cons_append, subMatch, Bool.or_eq_true]
      exact Or.inl (by simpa using this)
    | inr hr =>
      simp only [List.cons_append, subMatch, Bool.or_eq_true]
      exact Or.inr (ih hr)

/-- C6 counterexample: the claim — every step failure of an acquisition
surfaces as an AuthError carrying the manual-consent remediation hint — is
false for `getSimpleBHToken`, one of the two acquisition entry points it
names.  `getSimpleBHToken` has no `try/catch`: when the
authorization-code step rejects (here: the authority answering 401), the
raw step error propagates to the caller and its message carries no
hint. -/
theorem C6_counterexample :
    getSimpleBHToken stepFailSteps =
      Except.error "Request failed with status code 401" ∧
    containsHint "Request failed with status code 401" = false := by
  exact ⟨rfl, by decide⟩

/-- C6 (amended): only the full acquisition `getBHToken` wraps failures —
every error it surfaces is the single hint-carrying message (which does
contain the remediation hint, for every clientId) — while
`getSimpleBHToken` propagates the failing step's error unchanged, with
no hint added. -/
theorem C6_hint_wrapping (clientId : String) (s : AuthSteps) :
    (∀ m, getBHToken clientId s = Except.error m → m = hintMessage clientId) ∧
    containsHint (hintMessage clientId) = true ∧
    (∀ e, s.authorizationCode = Except.error e →
      getSimpleBHToken s = Except.error e) ∧
    (∀ code e, s.authorizationCode = Except.ok code →
      s.accessToken code = Except.error e →
      getSimpleBHToken s = Except.error e) ∧
    (∀ code tok e, s.authorizationCode = Except.ok code →
      s.accessToken code = Except.ok tok →
      s.restTokenAndUrl tok = Except.error e →
      getSimpleBHToken s = Except.error e) := by
  refine ⟨?_, ?_, ?_, ?_, ?_⟩
  · intro m h
    unfold getBHToken at h
    cases hb : getBHTokenBody s with
    | ok t => rw [hb] at h; exact absurd h (by simp)
    | error e =>
      rw [hb] at h
      exact (Except.error.injEq _ _).mp h.symm
  · unfold containsHint hintMessage
    rw [String.data_append, String.data_append, String.data_append,
        String.data_append, List.append_assoc, List.append_assoc,
        List.append_assoc]
    exact subMatch_append _ _ _ (by decide)
  · intro e h
    unfold getSimpleBHToken
    rw [h]
    rfl
  · intro code e h1 h2
    unfold getSimpleBHToken
    rw [h1]
    show Except.bind (s.accessToken code) _ = _
    rw [h2]
    rfl
  · intro code tok e h1 h2 h3
    unfold getSimpleBHToken
    rw [h1]
    show Except.bind (s.accessToken code) _ = _
    rw [h2]
    show s.restTokenAndUrl tok = _
    exact h3

/-- Witness for C6's amended theorem: on the failing fixture `getBHToken`
produces exactly the hint-carrying message, and `getSimpleBHToken`
produces exactly the raw step error. -/
theorem C6_hint_wrapping_witness :
    containsHint (hintMessage "cid") = true ∧
    getSimpleBHToken stepFailSteps =
      Except.error "Request failed with status code 401" ∧
    hintMessage "cid" = hintMessage "cid" :=
  ⟨(C6_hint_wrapping "cid" stepFailSteps).2.1,
   (C6_hint_wrapping "cid" stepFailSteps).2.2.1
     "Request failed with status code 401" rfl,
   (C6_hint_wrapping "cid" stepFailSteps).1 (hintMessage "cid") rfl⟩

end HintTheorems
